import Mathlib

set_option maxRecDepth 8000

/-!
Verification development for the Synology storage client (src/client.py).

The client is embedded shallowly: the mutable `SynologyClient` object becomes
an explicit `ClientState` record, the local disk becomes an explicit list of
existing paths, and every remote HTTP interaction is represented by a response
oracle passed in as a function argument.  Each Python method becomes a pure
Lean function from the pre-state (and the oracle) to its result, its
post-state, and observable effect counters (remote calls issued, config
persists performed, operation re-runs and re-authentications inside the
session-retry wrapper).  Exceptions become an `Except` error channel mirroring
the exception classes of client.py.
-/

namespace Synology

/-- Python truthiness of an optional string: `None` and `""` are falsy. -/
def pyTruthy : Option String → Bool
  | none => false
  | some s => s ≠ ""

/-- Model of Python `s.startswith(pre)`: prefix test on the code-point
sequence of the string. -/
def pyStartswith (s pre : String) : Bool := pre.data.isPrefixOf s.data

/-- Model of Python `s.endswith(suf)`: suffix test on the code-point
sequence of the string. -/
def pyEndswith (s suf : String) : Bool := suf.data.isSuffixOf s.data

/-- Model of Python `s.lower()`: lower-case each code point. -/
def pyLower (s : String) : String := ⟨s.data.map Char.toLower⟩

/-- Model of Python `s[n:]`: drop the first `n` code points. -/
def pyDrop (s : String) (n : Nat) : String := ⟨s.data.drop n⟩

/-- Model of Python `s.rstrip("/")`: remove every trailing slash. -/
def rstripSlash (s : String) : String := ⟨(s.data.reverse.dropWhile (fun c => c = '/')).reverse⟩

/-- Python string comparison `a <= b`: lexicographic on the code-point
sequences (`a <= b` iff not `b < a`). -/
def pyStrLe (a b : String) : Bool := !(decide (b.data < a.data))

/-- One step of a stable insertion sort: insert `x` after every element `y`
of the already sorted list with `le y x`. -/
def insertStable {α : Type} (le : α → α → Bool) (x : α) : List α → List α
  | [] => [x]
  | y :: ys => if le y x then y :: insertStable le x ys else x :: y :: ys

/-- Model of Python `sorted`: a stable sort by the boolean order `le`. -/
def pySorted {α : Type} (le : α → α → Bool) (l : List α) : List α :=
  l.foldl (fun acc x => insertStable le x acc) []

/-- Model of POSIX `os.path.join` on two components, as used by
`download_model` for `cache_dir/folder/filename`. -/
def osPathJoin (a b : String) : String :=
  if pyStartswith b "/" then b
  else if a = "" || pyEndswith a "/" then a ++ b
  else a ++ "/" ++ b

/-- Python `dict` deletion (`pop(k, None)` / overwrite) on an association
list representation. -/
def dictErase {α : Type} (k : String) (l : List (String × α)) : List (String × α) :=
  l.filter (fun p => !(p.1 == k))

/-- Python `dict` assignment `d[k] = v` on an association list. -/
def dictSet {α : Type} (k : String) (v : α) (l : List (String × α)) : List (String × α) :=
  (k, v) :: dictErase k l

/-- Removal of a path from the modelled file system (`os.remove`). -/
def fsRemove (p : String) (fs : List String) : List String :=
  fs.filter (fun q => !(q == p))

/-- Creation of a path in the modelled file system (`open(p, "wb")` or the
target of `os.rename`); the representation keeps at most one copy. -/
def fsAdd (p : String) (fs : List String) : List String :=
  p :: fsRemove p fs

/-- The exception taxonomy of client.py: `SynologyAuthError`,
`SynologyAPIError` (with its remote code), `SessionExpiredError` (code 119),
transport failures raised by `requests` / `raise_for_status`, and OS-level
failures during streaming writes. -/
inductive SynoError where
  | authError (msg : String)
  | apiError (msg : String) (code : Option Nat)
  | sessionExpired
  | connectionError (msg : String)
  | ioError (msg : String)
deriving DecidableEq, Repr

/-- The mutable fields of `SynologyClient.__init__` (client.py 95-105).
Dictionaries are association lists; `None` becomes `Option`. -/
structure ClientState where
  sid : Option String
  api_url : Option String
  username : Option String
  password : Option String
  models_base_path : String
  folder_paths : List (String × String)
  cache_dir : String
  model_cache : List (String × List String)
  auth_version : Nat
deriving DecidableEq, Repr

/-- Client state together with the local file system (the set of paths that
exist on disk), which `download_model` reads and mutates. -/
structure World where
  client : ClientState
  fs : List String
deriving DecidableEq, Repr

/-- Remote response to the login request of `_do_login`: transport failure,
a non-success envelope with its error code, or success carrying the sid. -/
inductive LoginResp where
  | transport (msg : String)
  | fail (code : Option Nat)
  | ok (sid : String)
deriving DecidableEq, Repr

/-- One entry of a directory-listing response (`{name, path, isdir}`). -/
structure FileEntry where
  name : String
  path : String
  isdir : Bool
deriving DecidableEq, Repr

/-- Remote response to a listing request: transport failure, a non-success
envelope with its code, or the entry list. -/
inductive ListResp where
  | transport (msg : String)
  | fail (code : Option Nat)
  | ok (files : List FileEntry)
deriving DecidableEq, Repr

/-- Remote response to the download request: transport failure, a JSON body
(the error envelope shape, with its success flag and code), or a binary
stream of chunks; a `none` chunk models a failure raised while reading or
writing that chunk. -/
inductive DlResp where
  | transport (msg : String)
  | json (success : Bool) (code : Option Nat)
  | stream (total : Nat) (chunks : List (Option Nat))
deriving DecidableEq, Repr

/-- Rendering of an optional remote error code inside a message string. -/
def optCodeStr : Option Nat → String
  | none => "None"
  | some n => toString n

/-- `_check_response` (client.py 235-240) on a non-success envelope: code 119
becomes the internal session-expired signal, anything else an API error. -/
def check_response_fail (code : Option Nat) : SynoError :=
  if code = some 119 then .sessionExpired else .apiError "API error" code

/-- The message of the `SynologyAuthError` raised by `_require_auth`. -/
def auth_required_msg : String := "Not authenticated - please log in first"

/-- `_require_auth` (client.py 231-233): fail if no sid is present. -/
def require_auth (st : ClientState) : Except SynoError Unit :=
  if pyTruthy st.sid then .ok () else .error (.authError auth_required_msg)

/-- `_do_login` (client.py 153-178): issues the login call; on a non-success
envelope raises `SynologyAuthError`, on transport failure the transport
error; on success stores the sid, clears the model cache and increments
`_auth_version`. -/
def do_login (st : ClientState) (resp : LoginResp) : Except SynoError Unit × ClientState :=
  match resp with
  | .transport msg => (.error (.connectionError msg), st)
  | .fail code =>
      (.error (.authError ("Login failed (error code: " ++ optCodeStr code ++ ")")), st)
  | .ok sid =>
      (.ok (), { st with sid := some sid, model_cache := [], auth_version := st.auth_version + 1 })

/-- `login` (client.py 138-151): optionally set the api url (rstripped),
fail when none is known, store the credentials, run `_do_login`, and persist
the config only when `persist` is set.  The third component counts
`_persist_config` calls.  The `api_url` argument uses `""` for Python's
`None` default (both are falsy). -/
def login (st : ClientState) (resp : LoginResp) (username password api_url : String)
    (persist : Bool) : Except SynoError Unit × ClientState × Nat :=
  let st1 := if api_url ≠ "" then { st with api_url := some (rstripSlash api_url) } else st
  if pyTruthy st1.api_url = false then
    (.error (.authError "API URL is required"), st1, 0)
  else
    let st2 := { st1 with username := some username, password := some password }
    match do_login st2 resp with
    | (.ok _, st3) => (.ok (), st3, if persist then 1 else 0)
    | (.error e, st3) => (.error e, st3, 0)

/-- `logout` (client.py 180-205): a best-effort remote invalidation is
attempted only when a sid and api url are present (its outcome is swallowed,
so no response oracle is needed); then unconditionally clear sid and
credentials, clear the model cache, increment the version and persist.
Returns (new state, remote calls, persists). -/
def logout (st : ClientState) : ClientState × Nat × Nat :=
  let remoteCalls := if pyTruthy st.sid && pyTruthy st.api_url then 1 else 0
  ({ st with sid := none, username := none, password := none,
             model_cache := [], auth_version := st.auth_version + 1 }, remoteCalls, 1)

/-- `_resolve_folder_path` (client.py 224-229): the rstripped override when a
non-empty one is configured, else `models_base_path + "/" + folder`. -/
def resolve_folder_path (st : ClientState) (folder : String) : String :=
  match st.folder_paths.lookup folder with
  | some custom =>
      if custom ≠ "" then rstripSlash custom else st.models_base_path ++ "/" ++ folder
  | none => st.models_base_path ++ "/" ++ folder

/-- `get_folder_path` (client.py 242-244). -/
def get_folder_path (st : ClientState) (folder : String) : String :=
  (st.folder_paths.lookup folder).getD ""

/-- `set_folder_path` (client.py 246-254): set or remove the override, drop
that folder's cached catalog, increment the version, persist.  The second
component counts `_persist_config` calls. -/
def set_folder_path (st : ClientState) (folder path : String) : ClientState × Nat :=
  let fps := if path ≠ "" then dictSet folder (rstripSlash path) st.folder_paths
             else dictErase folder st.folder_paths
  ({ st with folder_paths := fps,
             model_cache := dictErase folder st.model_cache,
             auth_version := st.auth_version + 1 }, 1)

/-- Does this outcome carry the internal session-expired signal? -/
def isSessionExpired {α : Type} : Except SynoError α → Bool
  | .error .sessionExpired => true
  | _ => false

instance {ε α : Type} [DecidableEq ε] [DecidableEq α] : DecidableEq (Except ε α) := fun x y =>
  match x, y with
  | .ok a, .ok b =>
      if h : a = b then isTrue (congrArg Except.ok h)
      else isFalse (fun hc => h (Except.ok.inj hc))
  | .error a, .error b =>
      if h : a = b then isTrue (congrArg Except.error h)
      else isFalse (fun hc => h (Except.error.inj hc))
  | .ok _, .error _ => isFalse (fun hc => Except.noConfusion hc)
  | .error _, .ok _ => isFalse (fun hc => Except.noConfusion hc)

/-- Outcome of an operation routed through `_with_session_retry`: the
result, the final world, and counters for remote calls issued, executions of
the wrapped operation, and re-authentication attempts. -/
structure RetryResult (α : Type) where
  result : Except SynoError α
  world : World
  remoteCalls : Nat
  fnCalls : Nat
  reauths : Nat
deriving DecidableEq, Repr

/-- `_with_session_retry` (client.py 209-220): run `fn`; if and only if it
raised `SessionExpiredError`, re-authenticate through `_do_login` when
credentials are cached (one extra remote call) and run `fn` exactly once
more, its outcome - whatever it is, including a second session expiry -
propagating unmodified; without cached credentials raise
`SynologyAuthError`.  `fn` returns `none` when it does not terminate within
its fuel; this propagates. -/
def with_session_retry {α : Type} (w : World)
    (fn : World → Option (Except SynoError α × World × Nat)) (reauth : LoginResp) :
    Option (RetryResult α) :=
  match fn w with
  | none => none
  | some (r1, w1, n1) =>
    if isSessionExpired r1 then
      if pyTruthy w1.client.username && pyTruthy w1.client.password then
        match do_login w1.client reauth with
        | (.ok _, st2) =>
            match fn { client := st2, fs := w1.fs } with
            | none => none
            | some (r2, w3, n2) => some ⟨r2, w3, n1 + 1 + n2, 2, 1⟩
        | (.error e, st2) =>
            some ⟨.error e, { client := st2, fs := w1.fs }, n1 + 1, 1, 1⟩
      else
        some ⟨.error (.authError "Session expired and no credentials available for re-auth"),
              w1, n1, 1, 0⟩
    else
      some ⟨r1, w1, n1, 1, 0⟩

/-- `_list_folder` (client.py 316-334): require auth, issue one listing call,
map the envelope through `_check_response`.  Returns the entries and the
number of remote calls issued.  The oracle is keyed by the sid passed as
`_sid` and the requested path. -/
def list_folder (remote : Option String → String → ListResp) (st : ClientState)
    (path : String) : Except SynoError (List FileEntry) × Nat :=
  match require_auth st with
  | .error e => (.error e, 0)
  | .ok _ =>
    match remote st.sid path with
    | .transport msg => (.error (.connectionError msg), 1)
    | .fail code => (.error (check_response_fail code), 1)
    | .ok files => (.ok files, 1)

/-- Python `sorted(l, key=lambda d: d["name"])` on `{name, path}` pairs. -/
def sortByName (l : List (String × String)) : List (String × String) :=
  pySorted (fun a b => pyStrLe a.1 b.1) l

/-- The `_do` closure of `list_shares` (client.py 256-281): require auth,
one `list_share` call, sort the `{name, path}` results by name. -/
def list_shares_do (remote : Option String → ListResp) (w : World) :
    Option (Except SynoError (List (String × String)) × World × Nat) :=
  some (match require_auth w.client with
  | .error e => (.error e, w, 0)
  | .ok _ =>
    match remote w.client.sid with
    | .transport msg => (.error (.connectionError msg), w, 1)
    | .fail code => (.error (check_response_fail code), w, 1)
    | .ok shares => (.ok (sortByName (shares.map fun s => (s.name, s.path))), w, 1))

/-- `list_shares` (client.py 256-281): the `_do` closure routed through the
session-retry wrapper. -/
def list_shares (remote : Option String → ListResp) (reauth : LoginResp) (w : World) :
    Option (RetryResult (List (String × String))) :=
  with_session_retry w (list_shares_do remote) reauth

/-- The `_do` closure of `list_directory` (client.py 289-314): require auth,
one listing call, keep only directory entries, sort by name. -/
def list_directory_do (remote : Option String → String → ListResp) (path : String)
    (w : World) : Option (Except SynoError (List (String × String)) × World × Nat) :=
  some (match require_auth w.client with
  | .error e => (.error e, w, 0)
  | .ok _ =>
    match remote w.client.sid path with
    | .transport msg => (.error (.connectionError msg), w, 1)
    | .fail code => (.error (check_response_fail code), w, 1)
    | .ok files =>
        (.ok (sortByName ((files.filter (fun f => f.isdir)).map fun f => (f.name, f.path))),
         w, 1))

/-- `list_directory` (client.py 283-314): the path `"/"` is special-cased to
`list_shares`; otherwise the `_do` closure goes through the retry wrapper. -/
def list_directory (sharesRemote : Option String → ListResp)
    (remote : Option String → String → ListResp) (reauth : LoginResp)
    (w : World) (path : String) : Option (RetryResult (List (String × String))) :=
  if path = "/" then list_shares sharesRemote reauth w
  else with_session_retry w (list_directory_do remote path) reauth

/-- The extension allow-list of `list_models` (client.py 356). -/
def model_extensions : List String := [".safetensors", ".ckpt", ".pt", ".pth", ".bin"]

/-- `name.lower().endswith((".safetensors", ".ckpt", ".pt", ".pth", ".bin"))`. -/
def has_model_extension (name : String) : Bool :=
  model_extensions.any (fun ext => pyEndswith (pyLower name) ext)

/-- The relative-path computation of `list_models` (client.py 358-363): strip
the literal prefix `base_path + "/"` from the entry's absolute path, falling
back to the bare filename when the path does not begin with that prefix. -/
def relative_model_path (base_path : String) (entry : FileEntry) : String :=
  if pyStartswith entry.path (base_path ++ "/") then pyDrop entry.path (base_path.length + 1)
  else entry.name

/-- The files kept from one directory listing during the `list_models`
traversal: non-directory entries with an allowed extension, reported via
`relative_model_path`. -/
def kept_files (base_path : String) (entries : List FileEntry) : List String :=
  entries.filterMap fun e =>
    if e.isdir then none
    else if has_model_extension e.name then some (relative_model_path base_path e)
    else none

/-- The subdirectories pushed onto the traversal stack from one listing. -/
def subdirs (entries : List FileEntry) : List String :=
  (entries.filter (fun e => e.isdir)).map (fun e => e.path)

/-- The `while stack:` loop of `list_models` (client.py 346-364).  The Lean
list holds the Python stack reversed (head = top), so Python's
`stack.pop()` is the head and appending the subdirectories of a listing in
order corresponds to consing their reversal.  Fuel bounds the iteration
count; `none` means the loop has not finished within the fuel.  Returns the
collected relative paths and the number of remote calls issued. -/
def traverse (remote : Option String → String → ListResp) (st : ClientState)
    (base_path : String) : Nat → List String → List String → Nat →
    Option (Except SynoError (List String) × Nat)
  | _, [], results, calls => some (.ok results, calls)
  | 0, _ :: _, _, _ => none
  | fuel + 1, current :: rest, results, calls =>
    match list_folder remote st current with
    | (.error e, n) => some (.error e, calls + n)
    | (.ok entries, n) =>
        traverse remote st base_path fuel ((subdirs entries).reverse ++ rest)
          (results ++ kept_files base_path entries) (calls + n)

/-- The `_do` closure of `list_models` (client.py 343-367): resolve the
folder root, run the traversal from it, sort the results and store them in
the model cache. -/
def list_models_do (remote : Option String → String → ListResp) (folder : String)
    (fuel : Nat) (w : World) :
    Option (Except SynoError (List String) × World × Nat) :=
  let base_path := resolve_folder_path w.client folder
  match traverse remote w.client base_path fuel [base_path] [] 0 with
  | none => none
  | some (.error e, n) => some (.error e, w, n)
  | some (.ok results, n) =>
      let sortedResults := pySorted pyStrLe results
      some (.ok sortedResults,
        { w with client := { w.client with
            model_cache := dictSet folder sortedResults w.client.model_cache } }, n)

/-- `list_models` (client.py 336-369): answer from the cache when the folder
is present (no retry wrapper, no remote call); otherwise run the traversal
closure through the session-retry wrapper. -/
def list_models (remote : Option String → String → ListResp) (reauth : LoginResp)
    (w : World) (folder : String) (fuel : Nat) : Option (RetryResult (List String)) :=
  match w.client.model_cache.lookup folder with
  | some cached => some ⟨.ok cached, w, 0, 0, 0⟩
  | none => with_session_retry w (list_models_do remote folder fuel) reauth

/-- The deterministic local cache path `cache_dir/folder/filename`
(client.py 375-376). -/
def local_cache_path (cache_dir folder filename : String) : String :=
  osPathJoin (osPathJoin cache_dir folder) filename

/-- The in-flight temporary path of `download_model` (client.py 412):
the final path with a fixed `".tmp"` suffix. -/
def tmp_path_of (cache_dir folder filename : String) : String :=
  local_cache_path cache_dir folder filename ++ ".tmp"

/-- The chunk-writing loop of `download_model` (client.py 414-420): succeed
when every chunk is delivered, fail at the first failing chunk.  The
progress callback of the source is a pure observer and is not modelled. -/
def write_chunks : List (Option Nat) → Except SynoError Unit
  | [] => .ok ()
  | none :: _ => .error (.ioError "stream write failed")
  | some _ :: rest => write_chunks rest

/-- The `_do` closure of `download_model` (client.py 382-428): require auth,
issue the streaming request for the resolved remote path; a JSON body is an
error envelope (checked through `_check_response`, then rejected outright);
a binary stream is written to the `.tmp` path and renamed into place on
completion, while any failure during streaming removes the `.tmp` file and
propagates. -/
def download_do (remote : Option String → String → DlResp)
    (folder filename local_path : String) (w : World) :
    Option (Except SynoError String × World × Nat) :=
  some (match require_auth w.client with
  | .error e => (.error e, w, 0)
  | .ok _ =>
    match remote w.client.sid (resolve_folder_path w.client folder ++ "/" ++ filename) with
    | .transport msg => (.error (.connectionError msg), w, 1)
    | .json true _ => (.error (.apiError "Download returned unexpected JSON response" none), w, 1)
    | .json false code => (.error (check_response_fail code), w, 1)
    | .stream _ chunks =>
        let tmp := local_path ++ ".tmp"
        let fs1 := fsAdd tmp w.fs
        match write_chunks chunks with
        | .ok _ => (.ok local_path, { w with fs := fsAdd local_path (fsRemove tmp fs1) }, 1)
        | .error e => (.error e, { w with fs := fsRemove tmp fs1 }, 1))

/-- `download_model` (client.py 371-430): compute the local cache path; if
it exists, return it at once with no remote call; otherwise run the download
closure through the session-retry wrapper. -/
def download_model (remote : Option String → String → DlResp) (reauth : LoginResp)
    (w : World) (folder filename : String) : Option (RetryResult String) :=
  let local_path := local_cache_path w.client.cache_dir folder filename
  if local_path ∈ w.fs then some ⟨.ok local_path, w, 0, 0, 0⟩
  else with_session_retry w (download_do remote folder filename local_path) reauth

end Synology

namespace Synology

theorem lookup_dictSet_self {α : Type} (k : String) (v : α) (l : List (String × α)) :
    (dictSet k v l).lookup k = some v := by
  simp [dictSet, List.lookup]

theorem lookup_dictErase_self {α : Type} (k : String) (l : List (String × α)) :
    (dictErase k l).lookup k = none := by
  induction l with
  | nil => rfl
  | cons p rest ih =>
    obtain ⟨a, b⟩ := p
    by_cases h : a = k
    · have hd : dictErase k ((a, b) :: rest) = dictErase k rest := by
        simp [dictErase, h]
      rw [hd]; exact ih
    · have hd : dictErase k ((a, b) :: rest) = (a, b) :: dictErase k rest := by
        simp [dictErase, h]
      have hba : (k == a) = false := beq_eq_false_iff_ne.mpr (fun hk => h hk.symm)
      rw [hd, List.lookup, hba]
      exact ih

theorem mem_fsRemove {p q : String} {fs : List String} :
    q ∈ fsRemove p fs ↔ q ∈ fs ∧ q ≠ p := by
  simp [fsRemove, List.mem_filter]

theorem fsRemove_cons_self (p : String) (fs : List String) :
    fsRemove p (p :: fs) = fsRemove p fs := by
  simp [fsRemove]

theorem fsRemove_idem (p : String) (fs : List String) :
    fsRemove p (fsRemove p fs) = fsRemove p fs := by
  simp [fsRemove, List.filter_filter]

theorem write_chunks_error {chunks : List (Option Nat)} (h : none ∈ chunks) :
    write_chunks chunks = .error (.ioError "stream write failed") := by
  induction chunks with
  | nil => cases h
  | cons c rest ih =>
    cases c with
    | none => rfl
    | some k =>
      rw [write_chunks]
      exact ih (by cases h with | tail _ h' => exact h')

theorem retry_not_expired {α : Type} {w w1 : World} {n1 : Nat}
    {fn : World → Option (Except SynoError α × World × Nat)} {reauth : LoginResp}
    {r1 : Except SynoError α}
    (hfn : fn w = some (r1, w1, n1)) (h : isSessionExpired r1 = false) :
    with_session_retry w fn reauth = some ⟨r1, w1, n1, 1, 0⟩ := by
  simp [with_session_retry, hfn, h]

theorem retry_reauths_zero {α : Type} {w : World}
    {fn : World → Option (Except SynoError α × World × Nat)} {reauth : LoginResp}
    {res : RetryResult α}
    (h : with_session_retry w fn reauth = some res) (hz : res.reauths = 0) :
    ∃ r1 n1, fn w = some (r1, res.world, n1) := by
  unfold with_session_retry at h
  cases hfn : fn w with
  | none => simp only [hfn] at h; exact Option.noConfusion h
  | some t =>
    obtain ⟨r1, w1, n1⟩ := t
    simp only [hfn] at h
    by_cases hse : isSessionExpired r1
    · rw [if_pos hse] at h
      by_cases hcred : (pyTruthy w1.client.username && pyTruthy w1.client.password) = true
      · rw [if_pos hcred] at h
        cases hdl : do_login w1.client reauth with
        | mk r2 st2 =>
          simp only [hdl] at h
          cases r2 with
          | ok u =>
            cases hfn2 : fn ⟨st2, w1.fs⟩ with
            | none => simp only [hfn2] at h; exact Option.noConfusion h
            | some t2 =>
              obtain ⟨r2a, w3, n2⟩ := t2
              simp only [hfn2] at h
              have he := Option.some.inj h
              subst he
              simp at hz
          | error e =>
            have he := Option.some.inj h
            subst he
            simp at hz
      · rw [if_neg hcred] at h
        have he := Option.some.inj h
        subst he
        exact ⟨r1, n1, by simp [hfn]⟩
    · rw [if_neg hse] at h
      have he := Option.some.inj h
      subst he
      exact ⟨r1, n1, by simp [hfn]⟩

theorem retry_ok_sourced {α : Type} {w : World}
    {fn : World → Option (Except SynoError α × World × Nat)} {reauth : LoginResp}
    {res : RetryResult α} {v : α}
    (h : with_session_retry w fn reauth = some res) (hok : res.result = .ok v) :
    ∃ w0 n, fn w0 = some (.ok v, res.world, n) := by
  unfold with_session_retry at h
  cases hfn : fn w with
  | none => simp only [hfn] at h; exact Option.noConfusion h
  | some t =>
    obtain ⟨r1, w1, n1⟩ := t
    simp only [hfn] at h
    by_cases hse : isSessionExpired r1
    · rw [if_pos hse] at h
      by_cases hcred : (pyTruthy w1.client.username && pyTruthy w1.client.password) = true
      · rw [if_pos hcred] at h
        cases hdl : do_login w1.client reauth with
        | mk r2 st2 =>
          simp only [hdl] at h
          cases r2 with
          | ok u =>
            cases hfn2 : fn ⟨st2, w1.fs⟩ with
            | none => simp only [hfn2] at h; exact Option.noConfusion h
            | some t2 =>
              obtain ⟨r2a, w3, n2⟩ := t2
              simp only [hfn2] at h
              have he := Option.some.inj h
              subst he
              dsimp only at hok
              subst hok
              exact ⟨⟨st2, w1.fs⟩, n2, by simp [hfn2]⟩
          | error e =>
            have he := Option.some.inj h
            subst he
            simp at hok
      · rw [if_neg hcred] at h
        have he := Option.some.inj h
        subst he
        simp at hok
    · rw [if_neg hse] at h
      have he := Option.some.inj h
      subst he
      dsimp only at hok
      subst hok
      exact ⟨w, n1, by simp [hfn]⟩

theorem list_shares_do_world {remote : Option String → ListResp} {w : World}
    {r : Except SynoError (List (String × String))} {w' : World} {n : Nat}
    (h : list_shares_do remote w = some (r, w', n)) : w' = w := by
  unfold list_shares_do at h
  have he := Option.some.inj h
  cases hra : require_auth w.client with
  | error e =>
    simp only [hra] at he
    exact (congrArg (fun t => t.2.1) he).symm
  | ok u =>
    simp only [hra] at he
    cases hrm : remote w.client.sid <;> simp only [hrm] at he <;>
      exact (congrArg (fun t => t.2.1) he).symm

theorem list_directory_do_world {remote : Option String → String → ListResp} {path : String}
    {w : World} {r : Except SynoError (List (String × String))} {w' : World} {n : Nat}
    (h : list_directory_do remote path w = some (r, w', n)) : w' = w := by
  unfold list_directory_do at h
  have he := Option.some.inj h
  cases hra : require_auth w.client with
  | error e =>
    simp only [hra] at he
    exact (congrArg (fun t => t.2.1) he).symm
  | ok u =>
    simp only [hra] at he
    cases hrm : remote w.client.sid path <;> simp only [hrm] at he <;>
      exact (congrArg (fun t => t.2.1) he).symm

theorem download_do_client {remote : Option String → String → DlResp}
    {folder filename local_path : String} {w : World}
    {r : Except SynoError String} {w' : World} {n : Nat}
    (h : download_do remote folder filename local_path w = some (r, w', n)) :
    w'.client = w.client := by
  unfold download_do at h
  have he := Option.some.inj h
  cases hra : require_auth w.client with
  | error e =>
    simp only [hra] at he
    exact (congrArg (fun t => t.2.1.client) he).symm
  | ok u =>
    simp only [hra] at he
    cases hrm : remote w.client.sid (resolve_folder_path w.client folder ++ "/" ++ filename) with
    | transport msg =>
      simp only [hrm] at he
      exact (congrArg (fun t => t.2.1.client) he).symm
    | json success code =>
      cases success <;> simp only [hrm] at he <;>
        exact (congrArg (fun t => t.2.1.client) he).symm
    | stream total chunks =>
      simp only [hrm] at he
      cases hwc : write_chunks chunks <;> simp only [hwc] at he <;>
        exact (congrArg (fun t => t.2.1.client) he).symm

theorem list_models_do_version {remote : Option String → String → ListResp}
    {folder : String} {fuel : Nat} {w : World}
    {r : Except SynoError (List String)} {w' : World} {n : Nat}
    (h : list_models_do remote folder fuel w = some (r, w', n)) :
    w'.client.auth_version = w.client.auth_version := by
  unfold list_models_do at h
  cases htr : traverse remote w.client (resolve_folder_path w.client folder) fuel
      [resolve_folder_path w.client folder] [] 0 with
  | none => simp only [htr] at h; exact Option.noConfusion h
  | some t =>
    obtain ⟨rr, nn⟩ := t
    cases rr with
    | error e =>
      simp only [htr] at h
      have he := Option.some.inj h
      exact (congrArg (fun t => t.2.1.client.auth_version) he).symm
    | ok results =>
      simp only [htr] at h
      have he := Option.some.inj h
      exact (congrArg (fun t => t.2.1.client.auth_version) he).symm

theorem list_models_do_cached {remote : Option String → String → ListResp}
    {folder : String} {fuel : Nat} {w : World}
    {l : List String} {w' : World} {n : Nat}
    (h : list_models_do remote folder fuel w = some (.ok l, w', n)) :
    w'.client.model_cache.lookup folder = some l := by
  unfold list_models_do at h
  cases htr : traverse remote w.client (resolve_folder_path w.client folder) fuel
      [resolve_folder_path w.client folder] [] 0 with
  | none => simp only [htr] at h; exact Option.noConfusion h
  | some t =>
    obtain ⟨rr, nn⟩ := t
    cases rr with
    | error e =>
      simp only [htr] at h
      have he := Option.some.inj h
      exact absurd (congrArg (fun t => t.1) he) (by simp)
    | ok results =>
      simp only [htr] at h
      have he := Option.some.inj h
      have hl := Except.ok.inj (congrArg (fun t => t.1) he)
      have hw := congrArg (fun t => t.2.1) he
      dsimp only at hw hl
      rw [← hw]
      dsimp only
      rw [← hl]
      exact lookup_dictSet_self ..

/-- An authenticated client state (token, credentials and endpoint present)
whose session the remote may consider stale. -/
def stAuthed : ClientState :=
  { sid := some "expired-sid", api_url := some "https://nas", username := some "alice",
    password := some "pw", models_base_path := "/volume1/models", folder_paths := [],
    cache_dir := "/cache", model_cache := [], auth_version := 1 }

/-- An unauthenticated client state (fresh construction, no login). -/
def stUnauthed : ClientState :=
  { sid := none, api_url := some "https://nas", username := none, password := none,
    models_base_path := "/volume1/models", folder_paths := [], cache_dir := "/cache",
    model_cache := [], auth_version := 0 }

/-- The client state produced by a successful re-login of `stAuthed`. -/
def stFresh : ClientState :=
  { stAuthed with sid := some "fresh-sid", model_cache := [], auth_version := 2 }

def wAuthed : World := ⟨stAuthed, []⟩

def wUnauthed : World := ⟨stUnauthed, []⟩

/-- An operation that raises the session-expired signal on every attempt. -/
def alwaysExpiredOp : World → Option (Except SynoError Unit × World × Nat) :=
  fun w => some (.error .sessionExpired, w, 1)

/-- Claim C1, counterexample: an operation that raises SessionExpired on the
first attempt and again on the single retry (credentials cached, re-login
succeeding) makes the wrapped call surface SessionExpired to the caller -
not AuthError - after exactly one re-authentication and exactly two runs of
the operation. -/
theorem C1_counterexample :
    (with_session_retry wAuthed alwaysExpiredOp (.ok "fresh-sid")).map
      (fun r => (r.result, r.fnCalls, r.reauths)) =
      some (.error .sessionExpired, 2, 1) := by
  rfl

/-- Claim C1 (amended): when the first execution raises SessionExpired, the
wrapper fails with AuthError if credentials are absent; with credentials and
a successful re-login it re-authenticates exactly once and re-runs the
operation exactly once, propagating the retry outcome unmodified - so a
second SessionExpired escapes to the caller; a failed re-login propagates
its own error without re-running the operation. -/
theorem C1_retry_amended {α : Type} (w w1 : World) (n1 : Nat)
    (fn : World → Option (Except SynoError α × World × Nat)) (reauth : LoginResp)
    (hfn : fn w = some (.error .sessionExpired, w1, n1)) :
    ((pyTruthy w1.client.username && pyTruthy w1.client.password) = false →
      with_session_retry w fn reauth =
        some ⟨.error (.authError "Session expired and no credentials available for re-auth"),
              w1, n1, 1, 0⟩) ∧
    ((pyTruthy w1.client.username && pyTruthy w1.client.password) = true →
      ∀ st2 : ClientState, do_login w1.client reauth = (.ok (), st2) →
      ∀ (r2 : Except SynoError α) (w3 : World) (n2 : Nat),
        fn ⟨st2, w1.fs⟩ = some (r2, w3, n2) →
        with_session_retry w fn reauth = some ⟨r2, w3, n1 + 1 + n2, 2, 1⟩) ∧
    ((pyTruthy w1.client.username && pyTruthy w1.client.password) = true →
      ∀ (e : SynoError) (st2 : ClientState), do_login w1.client reauth = (.error e, st2) →
        with_session_retry w fn reauth = some ⟨.error e, ⟨st2, w1.fs⟩, n1 + 1, 1, 1⟩) := by
  refine ⟨?_, ?_, ?_⟩
  · intro hcred
    simp [with_session_retry, hfn, isSessionExpired, hcred]
  · intro hcred st2 hdl r2 w3 n2 hfn2
    simp [with_session_retry, hfn, isSessionExpired, hcred, hdl, hfn2]
  · intro hcred e st2 hdl
    simp [with_session_retry, hfn, isSessionExpired, hcred, hdl]

/-- Witness for the amended claim C1, at the concrete always-expired
operation: one re-authentication, two runs, and the second SessionExpired
propagating. -/
theorem C1_retry_amended_witness :
    with_session_retry wAuthed alwaysExpiredOp (.ok "fresh-sid") =
      some ⟨.error .sessionExpired, ⟨stFresh, []⟩, 3, 2, 1⟩ :=
  (C1_retry_amended wAuthed wAuthed 1 alwaysExpiredOp (.ok "fresh-sid") rfl).2.1 rfl
    stFresh rfl (.error .sessionExpired) ⟨stFresh, []⟩ 1 rfl

/-- Claim C2: the in-flight temporary name is not collision-resistant - it
is the final path plus a fixed ".tmp" suffix, so any two download attempts
for the same folder and filename share one temporary path.  At the concrete
failing input the path is exactly "/cache/loras/x.safetensors.tmp". -/
theorem C2_fixed_tmp_suffix :
    tmp_path_of "/cache" "loras" "x.safetensors" = "/cache/loras/x.safetensors.tmp" ∧
    ∀ cache_dir folder filename : String,
      tmp_path_of cache_dir folder filename =
        local_cache_path cache_dir folder filename ++ ".tmp" :=
  ⟨by rfl, fun _ _ _ => rfl⟩

/-- A pre-login client state with a non-empty catalog cache. -/
def stInit : ClientState :=
  { sid := none, api_url := none, username := none, password := none,
    models_base_path := "/volume1/models", folder_paths := [], cache_dir := "/cache",
    model_cache := [("loras", ["old.ckpt"])], auth_version := 5 }

/-- The client state produced by a successful login of `stInit`. -/
def stAfterLogin : ClientState :=
  { sid := some "sid-1", api_url := some "https://nas", username := some "alice",
    password := some "pw", models_base_path := "/volume1/models", folder_paths := [],
    cache_dir := "/cache", model_cache := [], auth_version := 6 }

/-- Claim C3, counterexample: a successful login with the default
`persist := false` performs zero config persists. -/
theorem C3_counterexample :
    (login stInit (.ok "sid-1") "alice" "pw" "https://nas" false).1 = .ok () ∧
    (login stInit (.ok "sid-1") "alice" "pw" "https://nas" false).2.2 = 0 :=
  ⟨by rfl, by rfl⟩

/-- Claim C3 (amended): every successful login stores the token, clears all
cached catalogs and increments the version, but persists the configuration
only when the persist flag is set. -/
theorem C3_login_amended (st : ClientState) (resp : LoginResp)
    (u p url : String) (persist : Bool) (st' : ClientState) (k : Nat)
    (h : login st resp u p url persist = (.ok (), st', k)) :
    (∃ sid, resp = .ok sid ∧ st'.sid = some sid) ∧ st'.model_cache = [] ∧
      st'.auth_version = st.auth_version + 1 ∧ k = if persist then 1 else 0 := by
  unfold login at h
  dsimp only at h
  set st1 := (if url ≠ "" then { st with api_url := some (rstripSlash url) } else st) with hst1
  have hv : st1.auth_version = st.auth_version := by
    rw [hst1]; split <;> rfl
  by_cases hcond : pyTruthy st1.api_url = false
  · rw [if_pos hcond] at h
    exact absurd (congrArg (fun t => t.1) h) (by simp)
  · rw [if_neg hcond] at h
    cases resp with
    | transport m =>
      simp only [do_login] at h
      exact absurd (congrArg (fun t => t.1) h) (by simp)
    | fail c =>
      simp only [do_login] at h
      exact absurd (congrArg (fun t => t.1) h) (by simp)
    | ok sid =>
      simp only [do_login] at h
      have hst := congrArg (fun t => t.2.1) h
      have hk := congrArg (fun t => t.2.2) h
      dsimp only at hst hk
      refine ⟨⟨sid, rfl, by rw [← hst]⟩, by rw [← hst], ?_, ?_⟩
      · rw [← hst]
        show st1.auth_version + 1 = st.auth_version + 1
        rw [hv]
      · rw [← hk]

/-- Witness for the amended claim C3: a concrete successful login with
`persist := true` persisting exactly once. -/
theorem C3_login_amended_witness :
    (∃ sid, (LoginResp.ok "sid-1") = .ok sid ∧ stAfterLogin.sid = some sid) ∧
    stAfterLogin.model_cache = [] ∧
    stAfterLogin.auth_version = stInit.auth_version + 1 ∧
    (1 : Nat) = if true then 1 else 0 :=
  C3_login_amended stInit (.ok "sid-1") "alice" "pw" "https://nas" true stAfterLogin 1 (by rfl)

/-- A shares oracle that would answer an empty share list. -/
def sharesRemoteOk : Option String → ListResp := fun _ => .ok []

/-- Claim C4: login (on success, through the internal `_do_login`), logout
and `set_folder_path` each strictly increment the version counter, the first
two clearing every cached catalog and the third evicting the overridden
folder's catalog; and no other operation changes the version - each of
`list_shares`, `list_directory`, `list_models` and `download_model` leaves
the version unchanged whenever it performed no re-authentication (a
re-authentication being itself an internal `_do_login`). -/
theorem C4_version_and_invalidation :
    (∀ (st : ClientState) (sid : String),
        (do_login st (.ok sid)).2.auth_version = st.auth_version + 1 ∧
        (do_login st (.ok sid)).2.model_cache = []) ∧
    (∀ st : ClientState,
        (logout st).1.auth_version = st.auth_version + 1 ∧
        (logout st).1.model_cache = []) ∧
    (∀ (st : ClientState) (folder path : String),
        (set_folder_path st folder path).1.auth_version = st.auth_version + 1 ∧
        (set_folder_path st folder path).1.model_cache.lookup folder = none) ∧
    (∀ (w : World) (remote : Option String → ListResp) (reauth : LoginResp)
        (res : RetryResult (List (String × String))),
        list_shares remote reauth w = some res → res.reauths = 0 →
        res.world.client.auth_version = w.client.auth_version) ∧
    (∀ (w : World) (sharesRemote : Option String → ListResp)
        (remote : Option String → String → ListResp) (reauth : LoginResp) (path : String)
        (res : RetryResult (List (String × String))),
        list_directory sharesRemote remote reauth w path = some res → res.reauths = 0 →
        res.world.client.auth_version = w.client.auth_version) ∧
    (∀ (w : World) (remote : Option String → String → ListResp) (reauth : LoginResp)
        (folder : String) (fuel : Nat) (res : RetryResult (List String)),
        list_models remote reauth w folder fuel = some res → res.reauths = 0 →
        res.world.client.auth_version = w.client.auth_version) ∧
    (∀ (w : World) (remote : Option String → String → DlResp) (reauth : LoginResp)
        (folder filename : String) (res : RetryResult String),
        download_model remote reauth w folder filename = some res → res.reauths = 0 →
        res.world.client.auth_version = w.client.auth_version) := by
  refine ⟨fun st sid => ⟨rfl, rfl⟩, fun st => ⟨rfl, rfl⟩,
    fun st folder path => ⟨rfl, lookup_dictErase_self ..⟩, ?_, ?_, ?_, ?_⟩
  · intro w remote reauth res h hz
    unfold list_shares at h
    obtain ⟨r1, n1, hfn⟩ := retry_reauths_zero h hz
    rw [list_shares_do_world hfn]
  · intro w sharesRemote remote reauth path res h hz
    unfold list_directory at h
    split at h
    · unfold list_shares at h
      obtain ⟨r1, n1, hfn⟩ := retry_reauths_zero h hz
      rw [list_shares_do_world hfn]
    · obtain ⟨r1, n1, hfn⟩ := retry_reauths_zero h hz
      rw [list_directory_do_world hfn]
  · intro w remote reauth folder fuel res h hz
    unfold list_models at h
    cases hc : w.client.model_cache.lookup folder with
    | some cached =>
      rw [hc] at h
      have he := Option.some.inj h
      subst he
      rfl
    | none =>
      rw [hc] at h
      obtain ⟨r1, n1, hfn⟩ := retry_reauths_zero h hz
      exact list_models_do_version hfn
  · intro w remote reauth folder filename res h hz
    unfold download_model at h
    dsimp only at h
    split at h
    · have he := Option.some.inj h
      subst he
      rfl
    · obtain ⟨r1, n1, hfn⟩ := retry_reauths_zero h hz
      exact congrArg ClientState.auth_version (download_do_client hfn)

/-- Witness for claim C4: the logout part at a concrete authenticated state,
and the list-shares part at a concrete unauthenticated call that performed
no re-authentication. -/
theorem C4_witness :
    ((logout stAuthed).1.auth_version = stAuthed.auth_version + 1 ∧
      (logout stAuthed).1.model_cache = []) ∧
    wUnauthed.client.auth_version = wUnauthed.client.auth_version :=
  ⟨C4_version_and_invalidation.2.1 stAuthed,
   C4_version_and_invalidation.2.2.2.1 wUnauthed sharesRemoteOk (.ok "s")
     ⟨.error (.authError auth_required_msg), wUnauthed, 0, 1, 0⟩ (by rfl) rfl⟩

/-- Claim C5: after a `list_models` call that returned successfully, a second
call for the same folder on the resulting state - with any oracle, any
re-auth response and any fuel - returns the identical ordered list verbatim
from the cache, performing zero remote calls, zero operation runs and zero
re-authentications. -/
theorem C5_list_models_idempotent
    (remote remote2 : Option String → String → ListResp) (reauth reauth2 : LoginResp)
    (w : World) (folder : String) (fuel fuel2 : Nat)
    (res : RetryResult (List String)) (l : List String)
    (h : list_models remote reauth w folder fuel = some res)
    (hok : res.result = .ok l) :
    list_models remote2 reauth2 res.world folder fuel2 = some ⟨.ok l, res.world, 0, 0, 0⟩ := by
  have hc : res.world.client.model_cache.lookup folder = some l := by
    unfold list_models at h
    cases hc0 : w.client.model_cache.lookup folder with
    | some cached =>
      rw [hc0] at h
      have he := Option.some.inj h
      subst he
      dsimp only at hok
      rw [hc0]
      exact congrArg some (Except.ok.inj hok)
    | none =>
      rw [hc0] at h
      obtain ⟨w0, n, hdo⟩ := retry_ok_sourced h hok
      exact list_models_do_cached hdo
  unfold list_models
  rw [hc]

/-- An authenticated client state acceptable to the listing oracle below. -/
def wReady : World := ⟨stAuthed, []⟩

/-- A listing oracle describing a small remote tree under the loras root:
one model file at top level, one text file, and a subdirectory holding one
more model file. -/
def lorasRemote : Option String → String → ListResp := fun _ path =>
  if path = "/volume1/models/loras" then
    .ok [⟨"sub", "/volume1/models/loras/sub", true⟩,
         ⟨"b.ckpt", "/volume1/models/loras/b.ckpt", false⟩,
         ⟨"note.txt", "/volume1/models/loras/note.txt", false⟩]
  else if path = "/volume1/models/loras/sub" then
    .ok [⟨"x.safetensors", "/volume1/models/loras/sub/x.safetensors", false⟩]
  else .ok []

/-- The world after the first `list_models` call against `lorasRemote`. -/
def wAfterList : World :=
  ⟨{ stAuthed with model_cache := [("loras", ["b.ckpt", "sub/x.safetensors"])] }, []⟩

/-- Witness for claim C5: a concrete first call discovers two models in two
remote calls; the repeat call returns the same list with zero remote calls,
even with zero fuel and a different oracle. -/
theorem C5_witness :
    list_models (fun _ _ => .transport "down") (.fail none) wAfterList "loras" 0 =
      some ⟨.ok ["b.ckpt", "sub/x.safetensors"], wAfterList, 0, 0, 0⟩ :=
  C5_list_models_idempotent lorasRemote (fun _ _ => .transport "down")
    (.ok "s") (.fail none) wReady "loras" 3 0
    ⟨.ok ["b.ckpt", "sub/x.safetensors"], wAfterList, 2, 1, 0⟩
    ["b.ckpt", "sub/x.safetensors"] (by rfl) rfl

theorem pyStartswith_append (base rest : String) :
    pyStartswith (base ++ "/" ++ rest) (base ++ "/") = true := by
  simp [pyStartswith, String.data_append, List.isPrefixOf_iff_prefix]

theorem pyDrop_prefix (base rest : String) :
    pyDrop (base ++ "/" ++ rest) (base.length + 1) = rest := by
  unfold pyDrop
  have h2 : (base ++ "/" ++ rest).data = (base ++ "/").data ++ rest.data := by
    simp [String.data_append]
  have h3 : (base ++ "/").data.length = base.length + 1 := by
    rw [show (base ++ "/").data.length = (base ++ "/").length from rfl, String.length_append]
    rfl
  rw [h2, ← h3, List.drop_left]

/-- Claim C6: a kept file whose absolute path is the folder root followed by
"/" and a remainder is reported as exactly that remainder; a file whose
absolute path does not begin with the root plus "/" is reported by its bare
filename; and at the spec's example root and file the report is
"sub/x.safetensors". -/
theorem C6_relative_path :
    (∀ (base rest : String) (e : FileEntry), e.path = base ++ "/" ++ rest →
        relative_model_path base e = rest) ∧
    (∀ (base : String) (e : FileEntry), pyStartswith e.path (base ++ "/") = false →
        relative_model_path base e = e.name) ∧
    relative_model_path "/volume1/models/loras"
      ⟨"x.safetensors", "/volume1/models/loras/sub/x.safetensors", false⟩ =
      "sub/x.safetensors" := by
  refine ⟨?_, ?_, by rfl⟩
  · intro base rest e he
    unfold relative_model_path
    rw [he, if_pos (pyStartswith_append base rest)]
    exact pyDrop_prefix base rest
  · intro base e hpre
    simp [relative_model_path, hpre]

/-- Witness for claim C6: both branches at concrete entries. -/
theorem C6_witness :
    relative_model_path "/volume1/models" ⟨"a.pt", "/volume1/models/sub/a.pt", false⟩ =
      "sub/a.pt" ∧
    relative_model_path "/volume1/models" ⟨"b.pt", "/elsewhere/b.pt", false⟩ = "b.pt" :=
  ⟨C6_relative_path.1 "/volume1/models" "sub/a.pt"
      ⟨"a.pt", "/volume1/models/sub/a.pt", false⟩ (by rfl),
   C6_relative_path.2.1 "/volume1/models" ⟨"b.pt", "/elsewhere/b.pt", false⟩ (by rfl)⟩

theorem download_do_stream_fail (remote : Option String → String → DlResp)
    (folder filename lp : String) (w : World) (total : Nat) (chunks : List (Option Nat))
    (hsid : pyTruthy w.client.sid = true)
    (hremote : remote w.client.sid (resolve_folder_path w.client folder ++ "/" ++ filename) =
      .stream total chunks)
    (hfail : none ∈ chunks) :
    download_do remote folder filename lp w =
      some (.error (.ioError "stream write failed"),
        { w with fs := fsRemove (lp ++ ".tmp") w.fs }, 1) := by
  have hfs : fsRemove (lp ++ ".tmp") (fsAdd (lp ++ ".tmp") w.fs) =
      fsRemove (lp ++ ".tmp") w.fs := by
    unfold fsAdd
    rw [fsRemove_cons_self, fsRemove_idem]
  unfold download_do
  simp only [require_auth, hsid, if_true, hremote, write_chunks_error hfail]
  rw [hfs]

/-- Claim C7: on a cache miss, when the streaming fetch fails mid-stream,
`download_model` removes the partial temporary file and propagates the
error, leaving neither the final path nor its ".tmp" sibling on disk. -/
theorem C7_stream_failure_cleanup
    (w : World) (remote : Option String → String → DlResp) (reauth : LoginResp)
    (folder filename : String) (total : Nat) (chunks : List (Option Nat))
    (hsid : pyTruthy w.client.sid = true)
    (hmiss : local_cache_path w.client.cache_dir folder filename ∉ w.fs)
    (hremote : remote w.client.sid (resolve_folder_path w.client folder ++ "/" ++ filename) =
      .stream total chunks)
    (hfail : none ∈ chunks) :
    download_model remote reauth w folder filename =
      some ⟨.error (.ioError "stream write failed"),
        { w with fs := fsRemove (tmp_path_of w.client.cache_dir folder filename) w.fs },
        1, 1, 0⟩ ∧
    tmp_path_of w.client.cache_dir folder filename ∉
      fsRemove (tmp_path_of w.client.cache_dir folder filename) w.fs ∧
    local_cache_path w.client.cache_dir folder filename ∉
      fsRemove (tmp_path_of w.client.cache_dir folder filename) w.fs := by
  refine ⟨?_, ?_, ?_⟩
  · unfold download_model
    dsimp only
    rw [if_neg hmiss]
    exact retry_not_expired
      (download_do_stream_fail remote folder filename _ w total chunks hsid hremote hfail)
      (by rfl)
  · intro hmem
    exact (mem_fsRemove.mp hmem).2 rfl
  · intro hmem
    exact hmiss (mem_fsRemove.mp hmem).1

/-- A download oracle that always streams two chunks, the second failing. -/
def failingStreamRemote : Option String → String → DlResp :=
  fun _ _ => .stream 10 [some 5, none]

/-- Witness for claim C7 at a concrete state and failing stream. -/
theorem C7_witness :
    (download_model failingStreamRemote (.ok "s") wAuthed "loras" "x.safetensors" =
      some ⟨.error (.ioError "stream write failed"), wAuthed, 1, 1, 0⟩) ∧
    "/cache/loras/x.safetensors.tmp" ∉ ([] : List String) ∧
    "/cache/loras/x.safetensors" ∉ ([] : List String) :=
  C7_stream_failure_cleanup wAuthed failingStreamRemote (.ok "s") "loras" "x.safetensors"
    10 [some 5, none] (by rfl) (by decide) (by rfl) (by simp)

/-- Claim C8: when the local file `cacheRoot/folder/filename` already exists,
`download_model` returns that path at once, with zero remote calls and
without even entering the retry wrapper. -/
theorem C8_cache_hit (remote : Option String → String → DlResp) (reauth : LoginResp)
    (w : World) (folder filename : String)
    (h : local_cache_path w.client.cache_dir folder filename ∈ w.fs) :
    download_model remote reauth w folder filename =
      some ⟨.ok (local_cache_path w.client.cache_dir folder filename), w, 0, 0, 0⟩ := by
  unfold download_model
  dsimp only
  rw [if_pos h]

/-- An unauthenticated world whose cache already holds one model file. -/
def wCached : World := ⟨stUnauthed, ["/cache/loras/x.safetensors"]⟩

/-- Witness for claim C8 at a concrete cached file. -/
theorem C8_witness :
    download_model (fun _ _ => .transport "down") (.ok "s") wCached "loras" "x.safetensors" =
      some ⟨.ok "/cache/loras/x.safetensors", wCached, 0, 0, 0⟩ :=
  C8_cache_hit (fun _ _ => .transport "down") (.ok "s") wCached "loras" "x.safetensors"
    (by decide)

/-- Claim C9: while unauthenticated, every auth-requiring operation - listing
shares, listing a directory (including the "/" pseudo-root), catalog
discovery on a cache miss, and downloading on a cache miss - fails with
AuthError having issued zero remote calls. -/
theorem C9_unauthenticated_no_remote (w : World) (hsid : pyTruthy w.client.sid = false) :
    (∀ (remote : Option String → ListResp) (reauth : LoginResp),
        list_shares remote reauth w =
          some ⟨.error (.authError auth_required_msg), w, 0, 1, 0⟩) ∧
    (∀ (sharesRemote : Option String → ListResp) (remote : Option String → String → ListResp)
        (reauth : LoginResp) (path : String),
        list_directory sharesRemote remote reauth w path =
          some ⟨.error (.authError auth_required_msg), w, 0, 1, 0⟩) ∧
    (∀ (remote : Option String → String → ListResp) (reauth : LoginResp)
        (folder : String) (fuel : Nat),
        w.client.model_cache.lookup folder = none →
        list_models remote reauth w folder (fuel + 1) =
          some ⟨.error (.authError auth_required_msg), w, 0, 1, 0⟩) ∧
    (∀ (remote : Option String → String → DlResp) (reauth : LoginResp)
        (folder filename : String),
        local_cache_path w.client.cache_dir folder filename ∉ w.fs →
        download_model remote reauth w folder filename =
          some ⟨.error (.authError auth_required_msg), w, 0, 1, 0⟩) := by
  have hshares : ∀ (remote : Option String → ListResp) (reauth : LoginResp),
      list_shares remote reauth w =
        some ⟨.error (.authError auth_required_msg), w, 0, 1, 0⟩ := by
    intro remote reauth
    unfold list_shares
    exact retry_not_expired (by simp [list_shares_do, require_auth, hsid]) (by rfl)
  refine ⟨hshares, ?_, ?_, ?_⟩
  · intro sharesRemote remote reauth path
    unfold list_directory
    split
    · exact hshares sharesRemote reauth
    · exact retry_not_expired (by simp [list_directory_do, require_auth, hsid]) (by rfl)
  · intro remote reauth folder fuel hcache
    unfold list_models
    rw [hcache]
    have hdo : list_models_do remote folder (fuel + 1) w =
        some (.error (.authError auth_required_msg), w, 0) := by
      unfold list_models_do
      simp [traverse, list_folder, require_auth, hsid]
    exact retry_not_expired hdo (by rfl)
  · intro remote reauth folder filename hmiss
    unfold download_model
    dsimp only
    rw [if_neg hmiss]
    exact retry_not_expired (by simp [download_do, require_auth, hsid]) (by rfl)

/-- Witness for claim C9 at a concrete unauthenticated world. -/
theorem C9_witness :
    list_shares sharesRemoteOk (.ok "s") wUnauthed =
      some ⟨.error (.authError auth_required_msg), wUnauthed, 0, 1, 0⟩ ∧
    list_directory sharesRemoteOk (fun _ _ => .ok []) (.ok "s") wUnauthed "/" =
      some ⟨.error (.authError auth_required_msg), wUnauthed, 0, 1, 0⟩ ∧
    list_models (fun _ _ => .ok []) (.ok "s") wUnauthed "loras" 1 =
      some ⟨.error (.authError auth_required_msg), wUnauthed, 0, 1, 0⟩ ∧
    download_model (fun _ _ => .transport "down") (.ok "s") wUnauthed "loras" "x.safetensors" =
      some ⟨.error (.authError auth_required_msg), wUnauthed, 0, 1, 0⟩ :=
  ⟨(C9_unauthenticated_no_remote wUnauthed rfl).1 sharesRemoteOk (.ok "s"),
   (C9_unauthenticated_no_remote wUnauthed rfl).2.1 sharesRemoteOk (fun _ _ => .ok [])
     (.ok "s") "/",
   (C9_unauthenticated_no_remote wUnauthed rfl).2.2.1 (fun _ _ => .ok []) (.ok "s") "loras" 0
     (by rfl),
   (C9_unauthenticated_no_remote wUnauthed rfl).2.2.2 (fun _ _ => .transport "down") (.ok "s")
     "loras" "x.safetensors" (by decide)⟩

/-- Claim C10: the cache-existence check precedes the authentication check,
so a cached file is served even while unauthenticated - same immediate
return, zero remote calls, no AuthError. -/
theorem C10_cache_hit_unauthenticated (remote : Option String → String → DlResp)
    (reauth : LoginResp) (w : World) (folder filename : String)
    (_hsid : w.client.sid = none)
    (h : local_cache_path w.client.cache_dir folder filename ∈ w.fs) :
    download_model remote reauth w folder filename =
      some ⟨.ok (local_cache_path w.client.cache_dir folder filename), w, 0, 0, 0⟩ := by
  unfold download_model
  dsimp only
  rw [if_pos h]

/-- Witness for claim C10: the cached file of `wCached` is served with no
token present. -/
theorem C10_witness :
    download_model (fun _ _ => .json false (some 119)) (.fail none) wCached
      "loras" "x.safetensors" =
      some ⟨.ok "/cache/loras/x.safetensors", wCached, 0, 0, 0⟩ :=
  C10_cache_hit_unauthenticated (fun _ _ => .json false (some 119)) (.fail none) wCached
    "loras" "x.safetensors" (by rfl) (by decide)

end Synology
